import Mathlib

/-!
Verification of the arXiv submission-preview storage service.

This file gives a shallow embedding, in Lean 4, of the repository's core:

* `preview/services/store.py` — the `PreviewStore` service: key derivation,
  content hashing, deposit and the three read operations, the backend error
  translation layer (`_handle_client_error`), the availability probe
  (`is_available` / `_test_put`) and the bootstrap logic
  (`initialize` / `_create_bucket` / `_wait_for_bucket`);
* `preview/controllers.py` — the request handlers, in particular
  `get_preview_content` (conditional retrieval) and `deposit_preview`;
* the domain data model (`Preview`, `Metadata`, `Content`), whose module is
  not shipped with the source tree and is reconstructed from its use sites
  and from the specification's data-model section.

Python byte strings are modelled as `List Nat` (each entry one byte),
exceptions as `Except` values, wall-clock time as an explicit `now : Nat`
parameter, and the S3 backend as an explicit state (`S3State`) together
with an optional injected fault (`Option ClientError`) standing for the
transport failures a real backend call can produce.  `hashlib.md5` and
`base64.b64encode` are embedded as executable reference implementations.
-/

set_option autoImplicit false
set_option maxRecDepth 100000
set_option linter.unusedVariables false
set_option linter.unnecessarySeqFocus false

/-! ## MD5 (`hashlib.md5`) and base64 (`base64.b64encode`) -/

/-- 32-bit modular addition. -/
def add32 (a b : Nat) : Nat := (a + b) % 4294967296

/-- 32-bit complement (input assumed `< 2^32`). -/
def not32 (x : Nat) : Nat := 4294967295 - x % 4294967296

/-- 32-bit left rotation by `s` places (`0 ≤ s ≤ 32`). -/
def rotl32 (x s : Nat) : Nat :=
  ((x % 4294967296) % 2 ^ (32 - s)) * 2 ^ s + (x % 4294967296) / 2 ^ (32 - s)

/-- The 64 MD5 round constants `K[i] = floor(2^32 * abs(sin(i + 1)))`. -/
def md5K : List Nat :=
  [0xd76aa478, 0xe8c7b756, 0x242070db, 0xc1bdceee,
   0xf57c0faf, 0x4787c62a, 0xa8304613, 0xfd469501,
   0x698098d8, 0x8b44f7af, 0xffff5bb1, 0x895cd7be,
   0x6b901122, 0xfd987193, 0xa679438e, 0x49b40821,
   0xf61e2562, 0xc040b340, 0x265e5a51, 0xe9b6c7aa,
   0xd62f105d, 0x02441453, 0xd8a1e681, 0xe7d3fbc8,
   0x21e1cde6, 0xc33707d6, 0xf4d50d87, 0x455a14ed,
   0xa9e3e905, 0xfcefa3f8, 0x676f02d9, 0x8d2a4c8a,
   0xfffa3942, 0x8771f681, 0x6d9d6122, 0xfde5380c,
   0xa4beea44, 0x4bdecfa9, 0xf6bb4b60, 0xbebfbc70,
   0x289b7ec6, 0xeaa127fa, 0xd4ef3085, 0x04881d05,
   0xd9d4d039, 0xe6db99e5, 0x1fa27cf8, 0xc4ac5665,
   0xf4292244, 0x432aff97, 0xab9423a7, 0xfc93a039,
   0x655b59c3, 0x8f0ccc92, 0xffeff47d, 0x85845dd1,
   0x6fa87e4f, 0xfe2ce6e0, 0xa3014314, 0x4e0811a1,
   0xf7537e82, 0xbd3af235, 0x2ad7d2bb, 0xeb86d391]

/-- The MD5 per-round left-rotation amounts. -/
def md5S : List Nat :=
  [7, 12, 17, 22, 7, 12, 17, 22, 7, 12, 17, 22, 7, 12, 17, 22,
   5, 9, 14, 20, 5, 9, 14, 20, 5, 9, 14, 20, 5, 9, 14, 20,
   4, 11, 16, 23, 4, 11, 16, 23, 4, 11, 16, 23, 4, 11, 16, 23,
   6, 10, 15, 21, 6, 10, 15, 21, 6, 10, 15, 21, 6, 10, 15, 21]

/-- The MD5 nonlinear function for round `i`. -/
def md5F (i b c d : Nat) : Nat :=
  if i < 16 then Nat.lor (Nat.land b c) (Nat.land (not32 b) d)
  else if i < 32 then Nat.lor (Nat.land d b) (Nat.land (not32 d) c)
  else if i < 48 then Nat.xor (Nat.xor b c) d
  else Nat.xor c (Nat.lor b (not32 d))

/-- The MD5 message-word index for round `i`. -/
def md5G (i : Nat) : Nat :=
  if i < 16 then i
  else if i < 32 then (5 * i + 1) % 16
  else if i < 48 then (3 * i + 5) % 16
  else (7 * i) % 16

/-- One MD5 round on state `(a, b, c, d)` with message block `m`. -/
def md5Round (m : List Nat) (i : Nat) : Nat × Nat × Nat × Nat → Nat × Nat × Nat × Nat
  | (a, b, c, d) =>
    let f := add32 (add32 (add32 (md5F i b c d) a) (md5K.getD i 0)) (m.getD (md5G i) 0)
    (d, add32 b (rotl32 f (md5S.getD i 0)), b, c)

/-- Run MD5 rounds `i, i + 1, ...` while fuel lasts. -/
def md5Rounds (m : List Nat) (i : Nat) : Nat → Nat × Nat × Nat × Nat → Nat × Nat × Nat × Nat
  | 0, st => st
  | fuel + 1, st => md5Rounds m (i + 1) fuel (md5Round m i st)

/-- Process successive 16-word blocks of `ws` (fuel = number of blocks). -/
def md5Blocks : Nat → List Nat → Nat × Nat × Nat × Nat → Nat × Nat × Nat × Nat
  | 0, _, st => st
  | fuel + 1, ws, (a, b, c, d) =>
    let (a', b', c', d') := md5Rounds (ws.take 16) 0 64 (a, b, c, d)
    md5Blocks fuel (ws.drop 16) (add32 a a', add32 b b', add32 c c', add32 d d')

/-- `count` little-endian bytes of `v`. -/
def leBytes : Nat → Nat → List Nat
  | 0, _ => []
  | k + 1, v => v % 256 :: leBytes k (v / 256)

/-- Group bytes into 32-bit little-endian words. -/
def leWords : List Nat → List Nat
  | b0 :: b1 :: b2 :: b3 :: rest =>
    (b0 + 256 * b1 + 65536 * b2 + 16777216 * b3) :: leWords rest
  | _ => []

/-- MD5 padding: `0x80`, zeros to 56 mod 64, then the 64-bit LE bit length. -/
def md5Pad (msg : List Nat) : List Nat :=
  msg ++ 0x80 :: List.replicate ((119 - msg.length % 64) % 64) 0
      ++ leBytes 8 (msg.length * 8 % 2 ^ 64)

/-- The 16-byte MD5 digest of a byte string (`hashlib.md5(msg).digest()`). -/
def md5 (msg : List Nat) : List Nat :=
  let ws := leWords (md5Pad msg)
  match md5Blocks (ws.length / 16) ws (0x67452301, 0xefcdab89, 0x98badcfe, 0x10325476) with
  | (a, b, c, d) => leBytes 4 a ++ leBytes 4 b ++ leBytes 4 c ++ leBytes 4 d

/-- The base64 alphabet. -/
def b64chars : List Char :=
  ['A', 'B', 'C', 'D', 'E', 'F', 'G', 'H', 'I', 'J', 'K', 'L', 'M',
   'N', 'O', 'P', 'Q', 'R', 'S', 'T', 'U', 'V', 'W', 'X', 'Y', 'Z',
   'a', 'b', 'c', 'd', 'e', 'f', 'g', 'h', 'i', 'j', 'k', 'l', 'm',
   'n', 'o', 'p', 'q', 'r', 's', 't', 'u', 'v', 'w', 'x', 'y', 'z',
   '0', '1', '2', '3', '4', '5', '6', '7', '8', '9', '+', '/']

/-- Character `n` of the base64 alphabet. -/
def b64char (n : Nat) : Char := b64chars.getD n 'A'

/-- Base64-encode a byte string, as a character list. -/
def b64encodeList : List Nat → List Char
  | b0 :: b1 :: b2 :: rest =>
    b64char (b0 / 4) :: b64char (b0 % 4 * 16 + b1 / 16)
      :: b64char (b1 % 16 * 4 + b2 / 64) :: b64char (b2 % 64) :: b64encodeList rest
  | [b0, b1] =>
    [b64char (b0 / 4), b64char (b0 % 4 * 16 + b1 / 16), b64char (b1 % 16 * 4), '=']
  | [b0] => [b64char (b0 / 4), b64char (b0 % 4 * 16), '=', '=']
  | [] => []

/-- `base64.b64encode(bytes).decode('utf-8')`. -/
def b64encode (bytes : List Nat) : String := String.mk (b64encodeList bytes)

/-- The bytes of the test payload `b'foocontent'` from the repository's tests. -/
def fooBytes : List Nat := [102, 111, 111, 99, 111, 110, 116, 101, 110, 116]

/-- The bytes of the test payload `b'barcontent'` from the repository's tests. -/
def barBytes : List Nat := [98, 97, 114, 99, 111, 110, 116, 101, 110, 116]

/-! ## Domain data model

Modelled from the spec: the domain module (`preview/domain.py`, providing
`Content`, `Metadata` and `Preview`) is not in the source tree; its shape is
reconstructed from the spec's data-model section and from every use site in
`store.py` and `controllers.py`. -/

/-- Modelled from the spec: `Content` wraps the opened byte stream of a
preview ("an opened byte stream representing PDF bytes, read exactly once,
fully"); modelled as the byte string the stream yields. -/
structure Content where
  stream : List Nat
deriving DecidableEq

/-- Modelled from the spec: preview metadata
`{checksum: string, added: timestamp, size_bytes: integer}`. -/
structure Metadata where
  checksum : String
  added : Nat
  size_bytes : Nat
deriving DecidableEq

/-- Modelled from the spec: the `Preview` aggregate
`(source_id, checksum, metadata?, content?)`. -/
structure Preview where
  source_id : String
  checksum : String
  content : Option Content := none
  metadata : Option Metadata := none
deriving DecidableEq

/-! ## Object-storage backend

Modelled from the spec: the S3 backend (reached through the `boto3` client)
is an external collaborator.  It is modelled as a bucket-existence flag plus
a key-to-object map; each backend call additionally takes an optional
injected `ClientError` standing for the transport failures a real call can
produce (the spec requires each backend capability to raise distinguishable
"not found" / "container missing" / generic-failure conditions). -/

/-- A `botocore.exceptions.ClientError`, identified by the backend-reported
error code `exc.response['Error']['Code']`. -/
structure ClientError where
  code : String
deriving DecidableEq

/-- The `head_object` response shape used by `store.py` (`HeadResponse`). -/
structure HeadResponse where
  ETag : String
  LastModified : Nat
  ContentLength : Nat
deriving DecidableEq

/-- The `get_object` response shape used by `store.py` (`GetResponse`). -/
structure GetResponse where
  ETag : String
  LastModified : Nat
  ContentLength : Nat
  Body : List Nat
deriving DecidableEq

/-- An object stored in the bucket: its bytes, the backend-assigned entity
tag, its content type, and the write timestamp. -/
structure S3Object where
  body : List Nat
  etag : String
  contentType : String
  lastModified : Nat
deriving DecidableEq

/-- The backend state: whether the configured bucket exists, and the objects
it holds (most recent write first). -/
structure S3State where
  bucketExists : Bool
  objects : List (String × S3Object)
deriving DecidableEq

/-- Look up the most recently written object at `key`. -/
def lookupObj : List (String × S3Object) → String → Option S3Object
  | [], _ => none
  | (k, o) :: rest, key => if k = key then some o else lookupObj rest key

/-- `client.put_object(Body=body, Bucket=..., ContentMD5=..., ContentType=...,
Key=key)`.  The backend verifies the supplied base64 MD5 against the received
bytes and assigns the object's entity tag from those bytes. -/
def s3_put (st : S3State) (now : Nat) (fault : Option ClientError)
    (body : List Nat) (contentMD5 : String) (contentType : String)
    (key : String) : Except ClientError S3State :=
  match fault with
  | some e => .error e
  | none =>
    if st.bucketExists = false then .error ⟨"NoSuchBucket"⟩
    else if contentMD5 = b64encode (md5 body) then
      .ok ⟨true, (key, ⟨body, b64encode (md5 body), contentType, now⟩) :: st.objects⟩
    else .error ⟨"BadDigest"⟩

/-- `client.head_object(Bucket=..., Key=key)`. -/
def s3_head (st : S3State) (fault : Option ClientError) (key : String) :
    Except ClientError HeadResponse :=
  match fault with
  | some e => .error e
  | none =>
    if st.bucketExists = false then .error ⟨"NoSuchBucket"⟩
    else match lookupObj st.objects key with
      | none => .error ⟨"NoSuchKey"⟩
      | some o => .ok ⟨o.etag, o.lastModified, o.body.length⟩

/-- `client.get_object(Bucket=..., Key=key)`. -/
def s3_get (st : S3State) (fault : Option ClientError) (key : String) :
    Except ClientError GetResponse :=
  match fault with
  | some e => .error e
  | none =>
    if st.bucketExists = false then .error ⟨"NoSuchBucket"⟩
    else match lookupObj st.objects key with
      | none => .error ⟨"NoSuchKey"⟩
      | some o => .ok ⟨o.etag, o.lastModified, o.body.length, o.body⟩

/-! ## The `PreviewStore` service (`preview/services/store.py`) -/

/-- The exceptions that can cross the `PreviewStore` boundary.  The first
four are the module's own exception classes; `runtimeError` is Python's
built-in `RuntimeError` (raised by `_handle_client_error` for unclassified
backend errors); `clientError` stands for a raw `botocore` `ClientError`
escaping untranslated; `unboundLocal` stands for a Python `NameError` on a
path that would read a never-assigned local variable. -/
inductive StoreErr where
  | noSuchBucket (msg : String)
  | doesNotExist (msg : String)
  | depositFailed (msg : String)
  | previewAlreadyExists (msg : String)
  | runtimeError (msg : String)
  | clientError (code : String)
  | unboundLocal (name : String)
deriving DecidableEq

namespace PreviewStore

/-- `PreviewStore.hash_content`: the base64-encoded MD5 digest of `body`. -/
def hash_content (body : List Nat) : String := b64encode (md5 body)

/-- `PreviewStore._handle_client_error`: translate a backend `ClientError`
into the module's taxonomy by its error code.  Every branch raises; the
function never returns normally (`.ok`). -/
def handle_client_error (bucket : String) (exc : ClientError) :
    Except StoreErr Unit :=
  if exc.code = "NoSuchBucket" then
    .error (.noSuchBucket (bucket ++ " does not exist"))
  else if exc.code = "NoSuchKey" then
    .error (.doesNotExist ("No such object in " ++ bucket))
  else
    .error (.runtimeError "Unhandled ClientError")

/-- `PreviewStore._key`: the derived object-storage key. -/
def key (source_id : String) (checksum : String) : String :=
  "preview/" ++ source_id ++ "/" ++ checksum ++ "/" ++ source_id ++ ".pdf"

/-- `PreviewStore.deposit`: store the content of a preview.  Note the source
takes no overwrite flag and performs no existence check: the write is a plain
unconditional `put_object`.  On a `ClientError`, `_handle_client_error` is
invoked and only a resulting `RuntimeError` is converted to `DepositFailed`;
`NoSuchBucket` / `DoesNotExist` propagate.  Were `_handle_client_error` to
return normally, control would fall through to the `return Preview(...)`
statement even though nothing was stored. -/
def deposit (bucket : String) (st : S3State) (now : Nat)
    (fault : Option ClientError) (preview : Preview) :
    Except StoreErr (Preview × S3State) :=
  match preview.content with
  | none => .error (.depositFailed "Content is missing")
  | some content =>
    let k := key preview.source_id preview.checksum
    let body := content.stream
    let preview_checksum := hash_content body
    match s3_put st now fault body preview_checksum "application/pdf" k with
    | .error exc =>
      match handle_client_error bucket exc with
      | .error (.runtimeError _) => .error (.depositFailed "Could not deposit preview")
      | .error e => .error e
      | .ok _ =>
        .ok (⟨preview.source_id, preview.checksum, some content,
              some ⟨preview_checksum, now, body.length⟩⟩, st)
    | .ok st2 =>
      .ok (⟨preview.source_id, preview.checksum, some content,
            some ⟨preview_checksum, now, body.length⟩⟩, st2)

/-- `PreviewStore.get_metadata`.  If `_handle_client_error` returned
normally, the subsequent `return Metadata(resp['ETag'], ...)` would read the
unbound local `resp` (modelled by `unboundLocal`). -/
def get_metadata (bucket : String) (st : S3State) (fault : Option ClientError)
    (source_id : String) (checksum : String) : Except StoreErr Metadata :=
  match s3_head st fault (key source_id checksum) with
  | .error e =>
    match handle_client_error bucket e with
    | .error err => .error err
    | .ok _ => .error (.unboundLocal "resp")
  | .ok resp => .ok ⟨resp.ETag, resp.LastModified, resp.ContentLength⟩

/-- `PreviewStore.get_preview_checksum`: the stored content's entity tag via
a metadata-only `head_object` request. -/
def get_preview_checksum (bucket : String) (st : S3State)
    (fault : Option ClientError) (source_id : String) (checksum : String) :
    Except StoreErr String :=
  match s3_head st fault (key source_id checksum) with
  | .error e =>
    match handle_client_error bucket e with
    | .error err => .error err
    | .ok _ => .error (.unboundLocal "resp")
  | .ok resp => .ok resp.ETag

/-- `PreviewStore.get_preview`: the full preview, metadata and content. -/
def get_preview (bucket : String) (st : S3State) (fault : Option ClientError)
    (source_id : String) (checksum : String) : Except StoreErr Preview :=
  match s3_get st fault (key source_id checksum) with
  | .error e =>
    match handle_client_error bucket e with
    | .error err => .error err
    | .ok _ => .error (.unboundLocal "resp")
  | .ok resp =>
    .ok ⟨source_id, checksum, some ⟨resp.Body⟩,
         some ⟨resp.ETag, resp.LastModified, resp.ContentLength⟩⟩

/-- `PreviewStore._test_put`: probe the connection by putting a tiny object
(`b'test'` at key `'stat'`) with a short-lived client configured with the
given retry budget and timeouts.  `putRes` is the outcome of that backend
call; on a `ClientError` the translation layer is invoked (and whatever it
raises propagates); if the handler returned normally the probe would simply
return. -/
def test_put (bucket : String) (retries read_timeout connect_timeout : Nat)
    (putRes : Except ClientError Unit) : Except StoreErr Unit :=
  match putRes with
  | .ok _ => .ok ()
  | .error e =>
    match handle_client_error bucket e with
    | .error err => .error err
    | .ok _ => .ok ()

/-- `PreviewStore.is_available`: run `_test_put` and report `True` on
success; only a `RuntimeError` is caught and turned into `False` — any other
exception raised by the probe propagates to the caller. -/
def is_available (bucket : String) (retries read_timeout connect_timeout : Nat)
    (putRes : Except ClientError Unit) : Except StoreErr Bool :=
  match test_put bucket retries read_timeout connect_timeout putRes with
  | .ok _ => .ok true
  | .error (.runtimeError _) => .ok false
  | .error e => .error e

/-- `PreviewStore._create_bucket`: `client.create_bucket(Bucket=...)` with a
client configured with the given retry budget and timeouts.  The source has
no exception handler here: a backend `ClientError` escapes raw. -/
def create_bucket (bucket : String) (retries read_timeout connect_timeout : Nat)
    (createRes : Except ClientError Unit) : Except StoreErr Unit :=
  match createRes with
  | .ok _ => .ok ()
  | .error e => .error (.clientError e.code)

/-- `PreviewStore._wait_for_bucket`: run the `bucket_exists` waiter with
`WaiterConfig{Delay: delay, MaxAttempts: retries}`; a `ClientError` from the
waiter goes through the translation layer.  `waitRes` gives the waiter's
outcome as a function of the delay and retry budget it was configured
with. -/
def wait_for_bucket (bucket : String) (retries delay : Nat)
    (waitRes : Nat → Nat → Except ClientError Unit) : Except StoreErr Unit :=
  match waitRes delay retries with
  | .ok _ => .ok ()
  | .error e =>
    match handle_client_error bucket e with
    | .error err => .error err
    | .ok _ => .ok ()

/-- `PreviewStore.initialize`: probe with `is_available(retries=20,
connect_timeout=1, read_timeout=1)`; on `True` return.  Only a
`NoSuchBucket` raised by the probe is caught, in which case the bucket is
created (`retries=5, read_timeout=5, connect_timeout=5`) and waited for
(`retries=5, delay=5`).  If the probe returned `False`, raise
`RuntimeError('Failed to initialize storage service')`; any other exception
from the probe propagates. -/
def initializeStore (bucket : String) (putRes : Except ClientError Unit)
    (createRes : Except ClientError Unit)
    (waitRes : Nat → Nat → Except ClientError Unit) : Except StoreErr Unit :=
  match is_available bucket 20 1 1 putRes with
  | .ok true => .ok ()
  | .ok false => .error (.runtimeError "Failed to initialize storage service")
  | .error (.noSuchBucket _) =>
    match create_bucket bucket 5 5 5 createRes with
    | .error e => .error e
    | .ok _ =>
      match wait_for_bucket bucket 5 5 waitRes with
      | .error e => .error e
      | .ok _ => .ok ()
  | .error e => .error e

end PreviewStore

/-! ## Request handlers (`preview/controllers.py`) -/

/-- The transport-level failures a handler can produce: the
`werkzeug.exceptions` classes it raises, a Python `TypeError`, or a store
exception the handler does not catch (which escapes the handler raw). -/
inductive HandlerErr where
  | notFound (msg : String)
  | internalServerError (msg : String)
  | conflict (msg : String)
  | serviceUnavailable (msg : String)
  | typeError (msg : String)
  | uncaught (e : StoreErr)
deriving DecidableEq

/-- A handler's success value: the optional response body, the HTTP status
code, and the response headers. -/
def HandlerResponse : Type := Option (List Nat) × Nat × List (String × String)

instance : DecidableEq HandlerResponse := by
  unfold HandlerResponse
  infer_instance

/-- Lines 179–193 of `controllers.py`: the full fetch performed by
`get_preview_content` once the conditional short-circuit does not apply —
`st.get_preview(...)`, the `DoesNotExist` → `NotFound` mapping, the
defensive check that metadata and content are present, and the `200 OK`
response with `ETag`, `Content-type` and `Content-Length` headers. -/
def get_preview_content_fetch (bucket : String) (st : S3State)
    (getFault : Option ClientError) (source_id : String) (checksum : String) :
    Except HandlerErr HandlerResponse :=
  match PreviewStore.get_preview bucket st getFault source_id checksum with
  | .error (.doesNotExist _) => .error (.notFound "No preview available")
  | .error e => .error (.uncaught e)
  | .ok preview =>
    match preview.metadata, preview.content with
    | some md, some ct =>
      .ok (some ct.stream, 200,
           [("ETag", md.checksum), ("Content-type", "application/pdf"),
            ("Content-Length", toString md.size_bytes)])
    | _, _ => .error (.internalServerError "Unexpected error loading content")

/-- `controllers.get_preview_content`: when an `If-None-Match` value is
supplied, first resolve only the stored checksum via
`get_preview_checksum`; on an exact match answer `304 Not Modified` with no
body; otherwise (or when no tag is supplied) perform the full
`get_preview` fetch.  `headFault` and `getFault` are the injected outcomes
of the two distinct backend calls. -/
def get_preview_content (bucket : String) (st : S3State)
    (headFault getFault : Option ClientError) (source_id : String)
    (checksum : String) (none_match : Option String) :
    Except HandlerErr HandlerResponse :=
  match none_match with
  | some nm =>
    match PreviewStore.get_preview_checksum bucket st headFault source_id checksum with
    | .error (.doesNotExist _) => .error (.notFound "No preview available")
    | .error e => .error (.uncaught e)
    | .ok preview_checksum =>
      if nm = preview_checksum then
        .ok (none, 304, [("ETag", preview_checksum)])
      else
        get_preview_content_fetch bucket st getFault source_id checksum
  | none => get_preview_content_fetch bucket st getFault source_id checksum

/-- `controllers.deposit_preview`: the handler builds
`Preview(source_id, checksum, content=Content(stream=stream))` and then
calls `st.deposit(preview, overwrite=overwrite, checksum=content_checksum)`.
`PreviewStore.deposit` accepts only the preview argument, so this call
raises `TypeError: deposit() got an unexpected keyword argument 'overwrite'`
before any backend interaction; neither `except` clause
(`DepositFailed`, `PreviewAlreadyExists`) catches a `TypeError`, so it
escapes the handler. -/
def deposit_preview (bucket : String) (st : S3State) (now : Nat)
    (fault : Option ClientError) (source_id : String) (checksum : String)
    (stream : List Nat) (content_checksum : Option String) (overwrite : Bool) :
    Except HandlerErr HandlerResponse :=
  .error (.typeError "deposit() got an unexpected keyword argument 'overwrite'")

/-- The classification `_handle_client_error` assigns to a backend error
code. -/
def classifyErr (bucket : String) (e : ClientError) : StoreErr :=
  if e.code = "NoSuchBucket" then
    StoreErr.noSuchBucket (bucket ++ " does not exist")
  else if e.code = "NoSuchKey" then
    StoreErr.doesNotExist ("No such object in " ++ bucket)
  else StoreErr.runtimeError "Unhandled ClientError"

/-- A demonstration object and backend state for witnesses: one object
stored at the key derived from `("1234", "foohash1==")`. -/
def demoObj : S3Object := ⟨fooBytes, "etag1", "application/pdf", 7⟩

/-- Backend state holding exactly `demoObj`. -/
def demoSt : S3State :=
  ⟨true, [(PreviewStore.key "1234" "foohash1==", demoObj)]⟩

/-- The backend state after the repository's first test deposit
(`b'foocontent'` for identity `("1234", "foohash1==")`, written at time 1). -/
def c1St1 : S3State :=
  ⟨true, [(PreviewStore.key "1234" "foohash1==",
           ⟨fooBytes, b64encode (md5 fooBytes), "application/pdf", 1⟩)]⟩

/-- Membership in the spec's error taxonomy: the module's own exception
classes plus the wrapped generic `RuntimeError`; a raw backend client error
or an unbound-local failure is not in the taxonomy. -/
def isTaxonomyErr : StoreErr → Bool
  | StoreErr.clientError _ => false
  | StoreErr.unboundLocal _ => false
  | _ => true

/-! ## Known-answer checks for the embedded MD5 and base64 -/

example : b64encode (md5 []) = "1B2M2Y8AsgTpgAmY7PhCfg==" := by decide

example : b64encode (md5 fooBytes) = "ewrggAHdCT55M1uUfwKLEA==" := by decide

/-! ## Helper lemmas -/

/-- `_handle_client_error` computes to an `Except.error` whose payload is
determined by the error code: it raises on every input. -/
theorem handle_client_error_eq (bucket : String) (e : ClientError) :
    PreviewStore.handle_client_error bucket e
      = Except.error (classifyErr bucket e) := by
  unfold PreviewStore.handle_client_error classifyErr
  split_ifs <;> rfl

/-- The classification is never the unbound-local marker. -/
theorem classifyErr_ne_unboundLocal (bucket : String) (e : ClientError)
    (n : String) : classifyErr bucket e ≠ StoreErr.unboundLocal n := by
  unfold classifyErr
  split_ifs <;> simp

/-- The classification is one of exactly three errors. -/
theorem classifyErr_cases (bucket : String) (e : ClientError) :
    classifyErr bucket e = StoreErr.noSuchBucket (bucket ++ " does not exist")
    ∨ classifyErr bucket e
        = StoreErr.doesNotExist ("No such object in " ++ bucket)
    ∨ classifyErr bucket e = StoreErr.runtimeError "Unhandled ClientError" := by
  unfold classifyErr
  split_ifs <;> simp

/-- Evaluation of `get_preview_checksum` on a successful head request. -/
theorem get_preview_checksum_ok_eq (bucket : String) (st : S3State)
    (fault : Option ClientError) (sid cs : String) (resp : HeadResponse)
    (hh : s3_head st fault (PreviewStore.key sid cs) = Except.ok resp) :
    PreviewStore.get_preview_checksum bucket st fault sid cs
      = Except.ok resp.ETag := by
  unfold PreviewStore.get_preview_checksum
  rw [hh]

/-- Evaluation of `get_preview_checksum` on a failed head request. -/
theorem get_preview_checksum_err_eq (bucket : String) (st : S3State)
    (fault : Option ClientError) (sid cs : String) (e : ClientError)
    (hh : s3_head st fault (PreviewStore.key sid cs) = Except.error e) :
    PreviewStore.get_preview_checksum bucket st fault sid cs
      = Except.error (classifyErr bucket e) := by
  unfold PreviewStore.get_preview_checksum
  rw [hh]
  simp only [handle_client_error_eq]

/-- Evaluation of `get_metadata` on a successful head request. -/
theorem get_metadata_ok_eq (bucket : String) (st : S3State)
    (fault : Option ClientError) (sid cs : String) (resp : HeadResponse)
    (hh : s3_head st fault (PreviewStore.key sid cs) = Except.ok resp) :
    PreviewStore.get_metadata bucket st fault sid cs
      = Except.ok ⟨resp.ETag, resp.LastModified, resp.ContentLength⟩ := by
  unfold PreviewStore.get_metadata
  rw [hh]

/-- Evaluation of `get_metadata` on a failed head request. -/
theorem get_metadata_err_eq (bucket : String) (st : S3State)
    (fault : Option ClientError) (sid cs : String) (e : ClientError)
    (hh : s3_head st fault (PreviewStore.key sid cs) = Except.error e) :
    PreviewStore.get_metadata bucket st fault sid cs
      = Except.error (classifyErr bucket e) := by
  unfold PreviewStore.get_metadata
  rw [hh]
  simp only [handle_client_error_eq]

/-- Evaluation of `get_preview` on a successful get request. -/
theorem get_preview_ok_eq (bucket : String) (st : S3State)
    (fault : Option ClientError) (sid cs : String) (resp : GetResponse)
    (hh : s3_get st fault (PreviewStore.key sid cs) = Except.ok resp) :
    PreviewStore.get_preview bucket st fault sid cs
      = Except.ok ⟨sid, cs, some ⟨resp.Body⟩,
                   some ⟨resp.ETag, resp.LastModified, resp.ContentLength⟩⟩ := by
  unfold PreviewStore.get_preview
  rw [hh]

/-- Evaluation of `get_preview` on a failed get request. -/
theorem get_preview_err_eq (bucket : String) (st : S3State)
    (fault : Option ClientError) (sid cs : String) (e : ClientError)
    (hh : s3_get st fault (PreviewStore.key sid cs) = Except.error e) :
    PreviewStore.get_preview bucket st fault sid cs
      = Except.error (classifyErr bucket e) := by
  unfold PreviewStore.get_preview
  rw [hh]
  simp only [handle_client_error_eq]

/-- The error produced by `_handle_client_error` is one of the three
classifications. -/
theorem handle_client_error_cases (bucket : String) (e : ClientError)
    (err : StoreErr)
    (h : PreviewStore.handle_client_error bucket e = Except.error err) :
    err = StoreErr.noSuchBucket (bucket ++ " does not exist")
    ∨ err = StoreErr.doesNotExist ("No such object in " ++ bucket)
    ∨ err = StoreErr.runtimeError "Unhandled ClientError" := by
  rw [handle_client_error_eq] at h
  injection h with h
  unfold classifyErr at h
  split_ifs at h <;> simp [← h]

/-- Looking up after consing. -/
theorem lookupObj_cons (k : String) (o : S3Object)
    (rest : List (String × S3Object)) (key : String) :
    lookupObj ((k, o) :: rest) key
      = if k = key then some o else lookupObj rest key := rfl

/-! ## Claim C2 -/

/-- Claim C2 is false as stated: when the backend write probe fails with the
bucket-missing condition (`ClientError` code `NoSuchBucket`), `is_available`
does not return false — it propagates a `NoSuchBucket` exception to its
caller (only `RuntimeError` is caught). -/
theorem C2_counterexample :
    PreviewStore.is_available "submission-preview" 0 5 5
        (Except.error ⟨"NoSuchBucket"⟩)
      = Except.error (StoreErr.noSuchBucket "submission-preview does not exist")
    ∧ PreviewStore.is_available "submission-preview" 0 5 5
        (Except.error ⟨"NoSuchBucket"⟩) ≠ Except.ok false := by
  constructor
  · rfl
  · intro h
    cases h

/-- Claim C2 (amended): for every retry/timeout configuration,
`is_available` returns true exactly when the probe write succeeds, and
returns false (rather than an exception) when the probe fails with an
unclassified backend error; but when the probe fails with the bucket-missing
(`NoSuchBucket`) or object-missing (`NoSuchKey`) classification, the
resulting `NoSuchBucket` / `DoesNotExist` exception propagates to the
caller instead of yielding false. -/
theorem C2_is_available_classification (bucket : String)
    (retries read_timeout connect_timeout : Nat)
    (putRes : Except ClientError Unit) :
    (putRes = Except.ok () →
      PreviewStore.is_available bucket retries read_timeout connect_timeout
        putRes = Except.ok true)
    ∧ (∀ e : ClientError, putRes = Except.error e →
        e.code ≠ "NoSuchBucket" → e.code ≠ "NoSuchKey" →
        PreviewStore.is_available bucket retries read_timeout connect_timeout
          putRes = Except.ok false)
    ∧ (∀ e : ClientError, putRes = Except.error e → e.code = "NoSuchBucket" →
        PreviewStore.is_available bucket retries read_timeout connect_timeout
          putRes
          = Except.error (StoreErr.noSuchBucket (bucket ++ " does not exist")))
    ∧ (∀ e : ClientError, putRes = Except.error e → e.code = "NoSuchKey" →
        PreviewStore.is_available bucket retries read_timeout connect_timeout
          putRes
          = Except.error (StoreErr.doesNotExist ("No such object in " ++ bucket)))
    ∧ (PreviewStore.is_available bucket retries read_timeout connect_timeout
        putRes = Except.ok true → putRes = Except.ok ()) := by
  cases putRes with
  | ok u =>
    cases u
    refine ⟨fun _ => rfl, ?_, ?_, ?_, fun _ => rfl⟩ <;>
      · intro e h
        cases h
  | error e =>
    obtain ⟨c⟩ := e
    refine ⟨?_, ?_, ?_, ?_, ?_⟩
    · intro h
      cases h
    · rintro ⟨c'⟩ h h1 h2
      simp only [Except.error.injEq, ClientError.mk.injEq] at h
      subst h
      simp only [ClientError.mk.injEq] at h1 h2
      simp [PreviewStore.is_available, PreviewStore.test_put,
            handle_client_error_eq, classifyErr, h1, h2]
    · rintro ⟨c'⟩ h h1
      simp only [Except.error.injEq, ClientError.mk.injEq] at h
      subst h
      simp only [ClientError.mk.injEq] at h1
      subst h1
      simp [PreviewStore.is_available, PreviewStore.test_put,
            handle_client_error_eq, classifyErr]
    · rintro ⟨c'⟩ h h1
      simp only [Except.error.injEq, ClientError.mk.injEq] at h
      subst h
      simp only [ClientError.mk.injEq] at h1
      subst h1
      simp [PreviewStore.is_available, PreviewStore.test_put,
            handle_client_error_eq, classifyErr]
    · intro h
      simp only [PreviewStore.is_available, PreviewStore.test_put,
                 handle_client_error_eq, classifyErr] at h
      split_ifs at h <;> simp_all

/-- Witness for the amended C2: an unclassified backend error
(`Throttling`) makes `is_available` return false. -/
theorem C2_is_available_classification_witness :
    PreviewStore.is_available "submission-preview" 0 5 5
        (Except.error ⟨"Throttling"⟩) = Except.ok false :=
  (C2_is_available_classification "submission-preview" 0 5 5
      (Except.error ⟨"Throttling"⟩)).2.1 ⟨"Throttling"⟩ rfl
    (by decide) (by decide)

/-! ## Claim C5 -/

/-- Claim C5: for every identity whose derived key holds no object in the
backend (the bucket itself existing), each of `get_preview_checksum`,
`get_metadata` and `get_preview` raises `DoesNotExist`. -/
theorem C5_absent_reads_raise_DoesNotExist (bucket : String) (st : S3State)
    (source_id checksum : String)
    (hb : st.bucketExists = true)
    (habsent : lookupObj st.objects (PreviewStore.key source_id checksum)
        = none) :
    PreviewStore.get_preview_checksum bucket st none source_id checksum
      = Except.error (StoreErr.doesNotExist ("No such object in " ++ bucket))
    ∧ PreviewStore.get_metadata bucket st none source_id checksum
      = Except.error (StoreErr.doesNotExist ("No such object in " ++ bucket))
    ∧ PreviewStore.get_preview bucket st none source_id checksum
      = Except.error (StoreErr.doesNotExist ("No such object in " ++ bucket)) := by
  refine ⟨?_, ?_, ?_⟩ <;>
    simp [PreviewStore.get_preview_checksum, PreviewStore.get_metadata,
          PreviewStore.get_preview, s3_head, s3_get, hb, habsent,
          handle_client_error_eq, classifyErr]

/-- Witness for C5: fetching an identity never deposited from an empty
bucket fails with `DoesNotExist` on all three read operations. -/
theorem C5_absent_reads_raise_DoesNotExist_witness :
    PreviewStore.get_preview_checksum "submission-preview" ⟨true, []⟩ none
        "1234" "foohash1=="
      = Except.error (StoreErr.doesNotExist "No such object in submission-preview")
    ∧ PreviewStore.get_metadata "submission-preview" ⟨true, []⟩ none
        "1234" "foohash1=="
      = Except.error (StoreErr.doesNotExist "No such object in submission-preview")
    ∧ PreviewStore.get_preview "submission-preview" ⟨true, []⟩ none
        "1234" "foohash1=="
      = Except.error (StoreErr.doesNotExist "No such object in submission-preview") :=
  C5_absent_reads_raise_DoesNotExist "submission-preview" ⟨true, []⟩
    "1234" "foohash1==" rfl rfl

/-! ## Claim C10 -/

/-- Claim C10: the backend-error translation function `_handle_client_error`
never returns normally — it raises on every backend client error — and
consequently each read operation either raises or returns a value
constructed entirely from a successful backend response; the branch that
would build a result from an absent response (Python's unbound local
`resp`) is unreachable. -/
theorem C10_reads_built_from_backend_response :
    (∀ (bucket : String) (e : ClientError), ∃ err : StoreErr,
        PreviewStore.handle_client_error bucket e = Except.error err)
    ∧ (∀ (bucket : String) (st : S3State) (fault : Option ClientError)
          (sid cs r : String),
        PreviewStore.get_preview_checksum bucket st fault sid cs
            = Except.ok r →
        ∃ resp : HeadResponse,
          s3_head st fault (PreviewStore.key sid cs) = Except.ok resp
          ∧ r = resp.ETag)
    ∧ (∀ (bucket : String) (st : S3State) (fault : Option ClientError)
          (sid cs : String) (m : Metadata),
        PreviewStore.get_metadata bucket st fault sid cs = Except.ok m →
        ∃ resp : HeadResponse,
          s3_head st fault (PreviewStore.key sid cs) = Except.ok resp
          ∧ m = ⟨resp.ETag, resp.LastModified, resp.ContentLength⟩)
    ∧ (∀ (bucket : String) (st : S3State) (fault : Option ClientError)
          (sid cs : String) (p : Preview),
        PreviewStore.get_preview bucket st fault sid cs = Except.ok p →
        ∃ resp : GetResponse,
          s3_get st fault (PreviewStore.key sid cs) = Except.ok resp
          ∧ p = ⟨sid, cs, some ⟨resp.Body⟩,
                 some ⟨resp.ETag, resp.LastModified, resp.ContentLength⟩⟩)
    ∧ (∀ (bucket : String) (st : S3State) (fault : Option ClientError)
          (sid cs n : String),
        PreviewStore.get_preview_checksum bucket st fault sid cs
            ≠ Except.error (StoreErr.unboundLocal n)
        ∧ PreviewStore.get_metadata bucket st fault sid cs
            ≠ Except.error (StoreErr.unboundLocal n)
        ∧ PreviewStore.get_preview bucket st fault sid cs
            ≠ Except.error (StoreErr.unboundLocal n)) := by
  refine ⟨?_, ?_, ?_, ?_, ?_⟩
  · intro bucket e
    exact ⟨_, handle_client_error_eq bucket e⟩
  · intro bucket st fault sid cs r h
    cases hh : s3_head st fault (PreviewStore.key sid cs) with
    | ok resp =>
      rw [get_preview_checksum_ok_eq bucket st fault sid cs resp hh] at h
      simp only [Except.ok.injEq] at h
      exact ⟨resp, rfl, h.symm⟩
    | error e =>
      rw [get_preview_checksum_err_eq bucket st fault sid cs e hh] at h
      cases h
  · intro bucket st fault sid cs m h
    cases hh : s3_head st fault (PreviewStore.key sid cs) with
    | ok resp =>
      rw [get_metadata_ok_eq bucket st fault sid cs resp hh] at h
      simp only [Except.ok.injEq] at h
      exact ⟨resp, rfl, h.symm⟩
    | error e =>
      rw [get_metadata_err_eq bucket st fault sid cs e hh] at h
      cases h
  · intro bucket st fault sid cs p h
    cases hh : s3_get st fault (PreviewStore.key sid cs) with
    | ok resp =>
      rw [get_preview_ok_eq bucket st fault sid cs resp hh] at h
      simp only [Except.ok.injEq] at h
      exact ⟨resp, rfl, h.symm⟩
    | error e =>
      rw [get_preview_err_eq bucket st fault sid cs e hh] at h
      cases h
  · intro bucket st fault sid cs n
    refine ⟨?_, ?_, ?_⟩
    · intro h
      cases hh : s3_head st fault (PreviewStore.key sid cs) with
      | ok resp =>
        rw [get_preview_checksum_ok_eq bucket st fault sid cs resp hh] at h
        cases h
      | error e =>
        rw [get_preview_checksum_err_eq bucket st fault sid cs e hh] at h
        simp only [Except.error.injEq] at h
        exact classifyErr_ne_unboundLocal bucket e n h
    · intro h
      cases hh : s3_head st fault (PreviewStore.key sid cs) with
      | ok resp =>
        rw [get_metadata_ok_eq bucket st fault sid cs resp hh] at h
        cases h
      | error e =>
        rw [get_metadata_err_eq bucket st fault sid cs e hh] at h
        simp only [Except.error.injEq] at h
        exact classifyErr_ne_unboundLocal bucket e n h
    · intro h
      cases hh : s3_get st fault (PreviewStore.key sid cs) with
      | ok resp =>
        rw [get_preview_ok_eq bucket st fault sid cs resp hh] at h
        cases h
      | error e =>
        rw [get_preview_err_eq bucket st fault sid cs e hh] at h
        simp only [Except.error.injEq] at h
        exact classifyErr_ne_unboundLocal bucket e n h

/-- Witness for C10: a successful checksum read is built from the backend's
head response. -/
theorem C10_reads_built_from_backend_response_witness :
    ∃ resp : HeadResponse,
      s3_head demoSt none (PreviewStore.key "1234" "foohash1==")
          = Except.ok resp
      ∧ "etag1" = resp.ETag :=
  C10_reads_built_from_backend_response.2.1 "submission-preview" demoSt none
    "1234" "foohash1==" "etag1" rfl

/-! ## Deposit evaluation lemmas -/

/-- Evaluation of `deposit` when the preview carries no content. -/
theorem deposit_nocontent_eq (bucket : String) (st : S3State) (now : Nat)
    (fault : Option ClientError) (p : Preview) (hpc : p.content = none) :
    PreviewStore.deposit bucket st now fault p
      = Except.error (StoreErr.depositFailed "Content is missing") := by
  unfold PreviewStore.deposit
  rw [hpc]

/-- Evaluation of `deposit` when the backend put succeeds. -/
theorem deposit_put_ok_eq (bucket : String) (st : S3State) (now : Nat)
    (fault : Option ClientError) (p : Preview) (content : Content)
    (st2 : S3State) (hpc : p.content = some content)
    (hput : s3_put st now fault content.stream
        (PreviewStore.hash_content content.stream) "application/pdf"
        (PreviewStore.key p.source_id p.checksum) = Except.ok st2) :
    PreviewStore.deposit bucket st now fault p
      = Except.ok
          (⟨p.source_id, p.checksum, some content,
            some ⟨PreviewStore.hash_content content.stream, now,
                  content.stream.length⟩⟩, st2) := by
  simp only [PreviewStore.deposit, hpc]
  rw [hput]

/-- Evaluation of `deposit` against a live bucket with no injected fault:
the write always succeeds (the integrity value sent is the hash of the bytes
sent) and the new object lands at the derived key. -/
theorem deposit_ok_eq (bucket : String) (st : S3State) (now : Nat)
    (p : Preview) (content : Content) (hpc : p.content = some content)
    (hb : st.bucketExists = true) :
    PreviewStore.deposit bucket st now none p
      = Except.ok
          (⟨p.source_id, p.checksum, some content,
            some ⟨PreviewStore.hash_content content.stream, now,
                  content.stream.length⟩⟩,
           ⟨true, (PreviewStore.key p.source_id p.checksum,
                   ⟨content.stream, b64encode (md5 content.stream),
                    "application/pdf", now⟩) :: st.objects⟩) := by
  apply deposit_put_ok_eq bucket st now none p content _ hpc
  simp [s3_put, hb, PreviewStore.hash_content]

/-- Evaluation of `deposit` when the bucket does not exist (no injected
fault): the translated `NoSuchBucket` propagates out of `deposit`. -/
theorem deposit_nobucket_eq (bucket : String) (st : S3State) (now : Nat)
    (p : Preview) (content : Content) (hpc : p.content = some content)
    (hb : st.bucketExists = false) :
    PreviewStore.deposit bucket st now none p
      = Except.error (StoreErr.noSuchBucket (bucket ++ " does not exist")) := by
  simp only [PreviewStore.deposit, hpc]
  have hput : s3_put st now none content.stream
      (PreviewStore.hash_content content.stream) "application/pdf"
      (PreviewStore.key p.source_id p.checksum)
      = Except.error ⟨"NoSuchBucket"⟩ := by
    simp [s3_put, hb]
  rw [hput]
  simp only [handle_client_error_eq]
  simp [classifyErr]

/-! ## Claim C3 -/

/-- Claim C3: for every `(source_id, checksum, content)`, depositing the
preview into a live bucket and then immediately fetching it with
`get_preview` returns content byte-identical to what was deposited, with a
metadata checksum equal to the base64-encoded MD5 digest of those bytes. -/
theorem C3_deposit_get_roundtrip (bucket sid cs : String) (body : List Nat)
    (st : S3State) (now : Nat) (hb : st.bucketExists = true) :
    ∃ (p : Preview) (st2 : S3State),
      PreviewStore.deposit bucket st now none ⟨sid, cs, some ⟨body⟩, none⟩
        = Except.ok (p, st2)
      ∧ PreviewStore.get_preview bucket st2 none sid cs
          = Except.ok ⟨sid, cs, some ⟨body⟩,
              some ⟨PreviewStore.hash_content body, now, body.length⟩⟩
      ∧ PreviewStore.hash_content body = b64encode (md5 body) := by
  refine ⟨_, _,
    deposit_ok_eq bucket st now ⟨sid, cs, some ⟨body⟩, none⟩ ⟨body⟩ rfl hb,
    ?_, rfl⟩
  have hget : s3_get
      ⟨true, (PreviewStore.key sid cs,
              ⟨body, b64encode (md5 body), "application/pdf", now⟩) :: st.objects⟩
      none (PreviewStore.key sid cs)
      = Except.ok ⟨b64encode (md5 body), now, body.length, body⟩ := by
    simp [s3_get, lookupObj]
  rw [get_preview_ok_eq bucket _ none sid cs _ hget]
  rfl

/-- Witness for C3: the repository's own test payload round-trips. -/
theorem C3_deposit_get_roundtrip_witness :
    ∃ (p : Preview) (st2 : S3State),
      PreviewStore.deposit "submission-preview" ⟨true, []⟩ 3 none
          ⟨"1234", "foohash1==", some ⟨fooBytes⟩, none⟩
        = Except.ok (p, st2)
      ∧ PreviewStore.get_preview "submission-preview" st2 none
            "1234" "foohash1=="
          = Except.ok ⟨"1234", "foohash1==", some ⟨fooBytes⟩,
              some ⟨PreviewStore.hash_content fooBytes, 3, fooBytes.length⟩⟩
      ∧ PreviewStore.hash_content fooBytes = b64encode (md5 fooBytes) :=
  C3_deposit_get_roundtrip "submission-preview" "1234" "foohash1=="
    fooBytes ⟨true, []⟩ 3 rfl

/-! ## Claim C6 -/

/-- Claim C6: a successful deposit returns a new `Preview` carrying the
original `source_id` and `checksum` plus metadata whose checksum is the
base64-encoded MD5 of the content bytes, whose `added` timestamp is the
current time, and whose `size_bytes` is the byte length of the content; in
particular `b'foocontent'` has length 10 and entity tag
`base64(MD5(b'foocontent')) = "ewrggAHdCT55M1uUfwKLEA=="`. -/
theorem C6_deposit_fresh_metadata (bucket sid cs : String) (body : List Nat)
    (st : S3State) (now : Nat) (hb : st.bucketExists = true) :
    (∃ st2 : S3State,
      PreviewStore.deposit bucket st now none ⟨sid, cs, some ⟨body⟩, none⟩
        = Except.ok (⟨sid, cs, some ⟨body⟩,
            some ⟨PreviewStore.hash_content body, now, body.length⟩⟩, st2))
    ∧ PreviewStore.hash_content body = b64encode (md5 body)
    ∧ fooBytes.length = 10
    ∧ PreviewStore.hash_content fooBytes = "ewrggAHdCT55M1uUfwKLEA==" := by
  refine ⟨⟨_, deposit_ok_eq bucket st now ⟨sid, cs, some ⟨body⟩, none⟩
      ⟨body⟩ rfl hb⟩, rfl, rfl, by decide⟩

/-- Witness for C6: depositing `b'foocontent'` at time 5 into an empty live
bucket yields metadata with the base64 MD5 entity tag and size 10. -/
theorem C6_deposit_fresh_metadata_witness :
    (∃ st2 : S3State,
      PreviewStore.deposit "submission-preview" ⟨true, []⟩ 5 none
          ⟨"1234", "foohash1==", some ⟨fooBytes⟩, none⟩
        = Except.ok (⟨"1234", "foohash1==", some ⟨fooBytes⟩,
            some ⟨PreviewStore.hash_content fooBytes, 5, fooBytes.length⟩⟩, st2))
    ∧ PreviewStore.hash_content fooBytes = b64encode (md5 fooBytes)
    ∧ fooBytes.length = 10
    ∧ PreviewStore.hash_content fooBytes = "ewrggAHdCT55M1uUfwKLEA==" :=
  C6_deposit_fresh_metadata "submission-preview" "1234" "foohash1=="
    fooBytes ⟨true, []⟩ 5 rfl

/-! ## Claim C4 -/

/-- Claim C4: on a content request with a supplied entity tag, the handler
first resolves only the stored checksum through the metadata-only path; on
an exact match it answers `304 Not Modified` with no body — whatever the
outcome of a `get_object` call would have been, so `get_preview` is never
consulted and the body never materializes.  On a mismatch, or when no tag is
supplied, it performs the full `get_preview` fetch and returns the content
bytes with the current checksum. -/
theorem C4_conditional_retrieval (bucket : String) (st : S3State)
    (headFault getFault : Option ClientError) (sid cs tag : String) :
    (PreviewStore.get_preview_checksum bucket st headFault sid cs
        = Except.ok tag →
      get_preview_content bucket st headFault getFault sid cs (some tag)
        = Except.ok (none, 304, [("ETag", tag)]))
    ∧ (∀ cur : String,
        PreviewStore.get_preview_checksum bucket st headFault sid cs
            = Except.ok cur →
        tag ≠ cur →
        get_preview_content bucket st headFault getFault sid cs (some tag)
          = get_preview_content_fetch bucket st getFault sid cs)
    ∧ (get_preview_content bucket st headFault getFault sid cs none
        = get_preview_content_fetch bucket st getFault sid cs)
    ∧ (∀ (p : Preview) (md : Metadata) (ct : Content),
        PreviewStore.get_preview bucket st getFault sid cs = Except.ok p →
        p.metadata = some md → p.content = some ct →
        get_preview_content_fetch bucket st getFault sid cs
          = Except.ok (some ct.stream, 200,
              [("ETag", md.checksum), ("Content-type", "application/pdf"),
               ("Content-Length", toString md.size_bytes)])) := by
  refine ⟨?_, ?_, rfl, ?_⟩
  · intro h
    simp [get_preview_content, h]
  · intro cur h hne
    simp [get_preview_content, h, hne]
  · intro p md ct h hm hc
    simp [get_preview_content_fetch, h, hm, hc]

/-- Witness for C4: with the demonstration state, a matching tag yields
`304` with no body even though the injected fault would make any
`get_object` call fail — the body path is demonstrably not taken. -/
theorem C4_conditional_retrieval_witness :
    get_preview_content "submission-preview" demoSt none
        (some ⟨"InternalError"⟩) "1234" "foohash1==" (some "etag1")
      = Except.ok (none, 304, [("ETag", "etag1")]) :=
  (C4_conditional_retrieval "submission-preview" demoSt none
      (some ⟨"InternalError"⟩) "1234" "foohash1==" "etag1").1 rfl

/-! ## Claim C1 -/

/-- Claim C1 describes overwrite semantics the code does not have: as coded,
`PreviewStore.deposit` takes no overwrite flag, performs no existence check
and never raises `PreviewAlreadyExists` (conjunct 1); the first test deposit
succeeds (conjunct 2); a second deposit of the same identity with different
content also succeeds unconditionally (conjunct 3) and replaces the stored
object at the derived key (conjunct 4); and the handler's call
`st.deposit(preview, overwrite=..., checksum=...)` does not match
`deposit`'s signature, so every `deposit_preview` request fails with a
`TypeError` (conjunct 5) — contradicting the repository's own tests, which
expect `409 Conflict` without `Overwrite` and `201 Created` with it. -/
theorem C1_deposit_lacks_overwrite_semantics :
    (∀ (bucket : String) (st : S3State) (now : Nat)
        (fault : Option ClientError) (p : Preview) (msg : String),
      PreviewStore.deposit bucket st now fault p
        ≠ Except.error (StoreErr.previewAlreadyExists msg))
    ∧ PreviewStore.deposit "submission-preview" ⟨true, []⟩ 1 none
        ⟨"1234", "foohash1==", some ⟨fooBytes⟩, none⟩
      = Except.ok (⟨"1234", "foohash1==", some ⟨fooBytes⟩,
          some ⟨PreviewStore.hash_content fooBytes, 1, 10⟩⟩, c1St1)
    ∧ PreviewStore.deposit "submission-preview" c1St1 2 none
        ⟨"1234", "foohash1==", some ⟨barBytes⟩, none⟩
      = Except.ok (⟨"1234", "foohash1==", some ⟨barBytes⟩,
          some ⟨PreviewStore.hash_content barBytes, 2, 10⟩⟩,
        ⟨true, (PreviewStore.key "1234" "foohash1==",
                ⟨barBytes, b64encode (md5 barBytes), "application/pdf", 2⟩)
          :: c1St1.objects⟩)
    ∧ lookupObj ((PreviewStore.key "1234" "foohash1==",
          (⟨barBytes, b64encode (md5 barBytes), "application/pdf", 2⟩ : S3Object))
            :: c1St1.objects) (PreviewStore.key "1234" "foohash1==")
        = some ⟨barBytes, b64encode (md5 barBytes), "application/pdf", 2⟩
    ∧ (∀ (bucket : String) (st : S3State) (now : Nat)
        (fault : Option ClientError) (sid cs : String) (stream : List Nat)
        (content_checksum : Option String) (overwrite : Bool),
      deposit_preview bucket st now fault sid cs stream content_checksum
          overwrite
        = Except.error (HandlerErr.typeError
            "deposit() got an unexpected keyword argument 'overwrite'")) := by
  refine ⟨?_, ?_, ?_, ?_, ?_⟩
  · intro bucket st now fault p msg h
    cases hpc : p.content with
    | none =>
      rw [deposit_nocontent_eq bucket st now fault p hpc] at h
      simp at h
    | some content =>
      cases hput : s3_put st now fault content.stream
          (PreviewStore.hash_content content.stream) "application/pdf"
          (PreviewStore.key p.source_id p.checksum) with
      | ok st2 =>
        rw [deposit_put_ok_eq bucket st now fault p content st2 hpc hput] at h
        simp at h
      | error exc =>
        simp only [PreviewStore.deposit, hpc] at h
        rw [hput] at h
        simp only [handle_client_error_eq] at h
        rcases classifyErr_cases bucket exc with hcl | hcl | hcl <;>
          rw [hcl] at h <;> simp at h
  · exact deposit_ok_eq "submission-preview" ⟨true, []⟩ 1
      ⟨"1234", "foohash1==", some ⟨fooBytes⟩, none⟩ ⟨fooBytes⟩ rfl rfl
  · exact deposit_ok_eq "submission-preview" c1St1 2
      ⟨"1234", "foohash1==", some ⟨barBytes⟩, none⟩ ⟨barBytes⟩ rfl rfl
  · simp [lookupObj]
  · intro bucket st now fault sid cs stream content_checksum overwrite
    rfl

/-- Witness for C1's theorem: the concrete second deposit of the failing
input succeeds and replaces the object rather than raising
`PreviewAlreadyExists`. -/
theorem C1_deposit_lacks_overwrite_semantics_witness :
    PreviewStore.deposit "submission-preview" c1St1 2 none
        ⟨"1234", "foohash1==", some ⟨barBytes⟩, none⟩
      = Except.ok (⟨"1234", "foohash1==", some ⟨barBytes⟩,
          some ⟨PreviewStore.hash_content barBytes, 2, 10⟩⟩,
        ⟨true, (PreviewStore.key "1234" "foohash1==",
                ⟨barBytes, b64encode (md5 barBytes), "application/pdf", 2⟩)
          :: c1St1.objects⟩) :=
  C1_deposit_lacks_overwrite_semantics.2.2.1

/-! ## Claim C8 -/

/-- Claim C8: `initialize` returns successfully when the availability probe
succeeds; when the probe fails because the bucket does not exist, it creates
the bucket, waits for the backend to report it (waiter configured with
bounded retries 5 and fixed delay 5) and then returns success; and these are
the only two paths to success — in every other case `initialize` raises
instead of returning. -/
theorem C8_initialize_paths (bucket : String)
    (putRes createRes : Except ClientError Unit)
    (waitRes : Nat → Nat → Except ClientError Unit) :
    (putRes = Except.ok () →
      PreviewStore.initializeStore bucket putRes createRes waitRes
        = Except.ok ())
    ∧ (putRes = Except.error ⟨"NoSuchBucket"⟩ → createRes = Except.ok () →
        waitRes 5 5 = Except.ok () →
        PreviewStore.initializeStore bucket putRes createRes waitRes
          = Except.ok ())
    ∧ (PreviewStore.initializeStore bucket putRes createRes waitRes
          = Except.ok () →
        putRes = Except.ok ()
        ∨ (putRes = Except.error ⟨"NoSuchBucket"⟩
           ∧ createRes = Except.ok () ∧ waitRes 5 5 = Except.ok ())) := by
  cases putRes with
  | ok u =>
    cases u
    refine ⟨fun _ => rfl, ?_, fun _ => Or.inl rfl⟩
    intro h
    cases h
  | error e =>
    obtain ⟨c⟩ := e
    by_cases hc : c = "NoSuchBucket"
    · subst hc
      refine ⟨?_, ?_, ?_⟩
      · intro h
        cases h
      · intro _ h2 h3
        simp [PreviewStore.initializeStore, PreviewStore.is_available,
              PreviewStore.test_put, handle_client_error_eq, classifyErr,
              PreviewStore.create_bucket, PreviewStore.wait_for_bucket, h2, h3]
      · intro h
        refine Or.inr ⟨rfl, ?_⟩
        cases hcr : createRes with
        | error e2 =>
          exfalso
          simp [PreviewStore.initializeStore, PreviewStore.is_available,
                PreviewStore.test_put, handle_client_error_eq, classifyErr,
                PreviewStore.create_bucket, hcr] at h
        | ok u2 =>
          cases u2
          refine ⟨rfl, ?_⟩
          cases hw : waitRes 5 5 with
          | ok u3 =>
            cases u3
            rfl
          | error e3 =>
            exfalso
            rcases classifyErr_cases bucket e3 with hcl | hcl | hcl <;>
              simp [PreviewStore.initializeStore, PreviewStore.is_available,
                    PreviewStore.test_put, handle_client_error_eq, classifyErr,
                    PreviewStore.create_bucket, PreviewStore.wait_for_bucket,
                    hcr, hw, hcl] at h
    · by_cases hk : c = "NoSuchKey"
      · subst hk
        refine ⟨?_, ?_, ?_⟩
        · intro h
          cases h
        · intro h
          simp at h
        · intro h
          exfalso
          simp [PreviewStore.initializeStore, PreviewStore.is_available,
                PreviewStore.test_put, handle_client_error_eq, classifyErr] at h
      · refine ⟨?_, ?_, ?_⟩
        · intro h
          cases h
        · intro h
          simp only [Except.error.injEq, ClientError.mk.injEq] at h
          exact absurd h hc
        · intro h
          exfalso
          simp [PreviewStore.initializeStore, PreviewStore.is_available,
                PreviewStore.test_put, handle_client_error_eq, classifyErr,
                hc, hk] at h

/-- Witness for C8: a successful probe makes `initialize` return success,
and the create-then-wait path also returns success. -/
theorem C8_initialize_paths_witness :
    PreviewStore.initializeStore "submission-preview" (Except.ok ())
        (Except.ok ()) (fun _ _ => Except.ok ()) = Except.ok ()
    ∧ PreviewStore.initializeStore "submission-preview"
        (Except.error ⟨"NoSuchBucket"⟩) (Except.ok ())
        (fun _ _ => Except.ok ()) = Except.ok () :=
  ⟨(C8_initialize_paths "submission-preview" (Except.ok ()) (Except.ok ())
      (fun _ _ => Except.ok ())).1 rfl,
   (C8_initialize_paths "submission-preview" (Except.error ⟨"NoSuchBucket"⟩)
      (Except.ok ()) (fun _ _ => Except.ok ())).2.1 rfl rfl rfl⟩

/-! ## Claim C7 -/

/-- Claim C7 is false as stated: `initialize` is a public Store operation,
and when the availability probe reports the bucket missing and the
subsequent `create_bucket` call fails, the raw backend `ClientError`
(here `AccessDenied`) crosses the Store boundary untranslated —
`_create_bucket` has no exception handler. -/
theorem C7_counterexample :
    PreviewStore.initializeStore "submission-preview"
        (Except.error ⟨"NoSuchBucket"⟩) (Except.error ⟨"AccessDenied"⟩)
        (fun _ _ => Except.ok ())
      = Except.error (StoreErr.clientError "AccessDenied")
    ∧ isTaxonomyErr (StoreErr.clientError "AccessDenied") = false :=
  ⟨rfl, rfl⟩

/-- Claim C7 (amended): every error crossing the boundary of `deposit`,
`get_metadata`, `get_preview_checksum`, `get_preview` and `is_available` is
exactly one member of the taxonomy (`NoSuchBucket`, `DoesNotExist`, the
wrapped generic `RuntimeError`, plus `DepositFailed` on the deposit path),
and no backend error is silently swallowed: an injected backend fault makes
every read and every deposit raise, and never makes the availability probe
report success.  `initialize` also only raises taxonomy errors — except
that a backend error raised by its `create_bucket` call escapes raw (the
counterexample); with a successful create, its errors stay in the
taxonomy. -/
theorem C7_store_boundary_taxonomy :
    (∀ (bucket : String) (st : S3State) (now : Nat)
        (fault : Option ClientError) (p : Preview) (err : StoreErr),
      PreviewStore.deposit bucket st now fault p = Except.error err →
      isTaxonomyErr err = true)
    ∧ (∀ (bucket : String) (st : S3State) (fault : Option ClientError)
          (sid cs : String) (err : StoreErr),
        PreviewStore.get_metadata bucket st fault sid cs = Except.error err →
        isTaxonomyErr err = true)
    ∧ (∀ (bucket : String) (st : S3State) (fault : Option ClientError)
          (sid cs : String) (err : StoreErr),
        PreviewStore.get_preview_checksum bucket st fault sid cs
            = Except.error err →
        isTaxonomyErr err = true)
    ∧ (∀ (bucket : String) (st : S3State) (fault : Option ClientError)
          (sid cs : String) (err : StoreErr),
        PreviewStore.get_preview bucket st fault sid cs = Except.error err →
        isTaxonomyErr err = true)
    ∧ (∀ (bucket : String) (r rt ct : Nat) (putRes : Except ClientError Unit)
          (err : StoreErr),
        PreviewStore.is_available bucket r rt ct putRes = Except.error err →
        isTaxonomyErr err = true)
    ∧ (∀ (bucket : String) (putRes : Except ClientError Unit)
          (waitRes : Nat → Nat → Except ClientError Unit) (err : StoreErr),
        PreviewStore.initializeStore bucket putRes (Except.ok ()) waitRes
            = Except.error err →
        isTaxonomyErr err = true)
    ∧ (∀ (bucket : String) (st : S3State) (sid cs : String)
          (e : ClientError),
        (∃ err, PreviewStore.get_metadata bucket st (some e) sid cs
            = Except.error err)
        ∧ (∃ err, PreviewStore.get_preview_checksum bucket st (some e) sid cs
            = Except.error err)
        ∧ (∃ err, PreviewStore.get_preview bucket st (some e) sid cs
            = Except.error err))
    ∧ (∀ (bucket : String) (st : S3State) (now : Nat) (p : Preview)
          (e : ClientError),
        ∃ err, PreviewStore.deposit bucket st now (some e) p
          = Except.error err)
    ∧ (∀ (bucket : String) (r rt ct : Nat) (e : ClientError),
        PreviewStore.is_available bucket r rt ct (Except.error e)
          ≠ Except.ok true) := by
  refine ⟨?_, ?_, ?_, ?_, ?_, ?_, ?_, ?_, ?_⟩
  · intro bucket st now fault p err h
    cases hpc : p.content with
    | none =>
      rw [deposit_nocontent_eq bucket st now fault p hpc] at h
      simp only [Except.error.injEq] at h
      subst h
      rfl
    | some content =>
      cases hput : s3_put st now fault content.stream
          (PreviewStore.hash_content content.stream) "application/pdf"
          (PreviewStore.key p.source_id p.checksum) with
      | ok st2 =>
        rw [deposit_put_ok_eq bucket st now fault p content st2 hpc hput] at h
        simp at h
      | error exc =>
        simp only [PreviewStore.deposit, hpc] at h
        rw [hput] at h
        simp only [handle_client_error_eq] at h
        rcases classifyErr_cases bucket exc with hcl | hcl | hcl <;>
          rw [hcl] at h <;> simp only [Except.error.injEq] at h <;>
          subst h <;> rfl
  · intro bucket st fault sid cs err h
    cases hh : s3_head st fault (PreviewStore.key sid cs) with
    | ok resp =>
      rw [get_metadata_ok_eq bucket st fault sid cs resp hh] at h
      simp at h
    | error e =>
      rw [get_metadata_err_eq bucket st fault sid cs e hh] at h
      simp only [Except.error.injEq] at h
      subst h
      rcases classifyErr_cases bucket e with hcl | hcl | hcl <;> rw [hcl] <;>
        rfl
  · intro bucket st fault sid cs err h
    cases hh : s3_head st fault (PreviewStore.key sid cs) with
    | ok resp =>
      rw [get_preview_checksum_ok_eq bucket st fault sid cs resp hh] at h
      simp at h
    | error e =>
      rw [get_preview_checksum_err_eq bucket st fault sid cs e hh] at h
      simp only [Except.error.injEq] at h
      subst h
      rcases classifyErr_cases bucket e with hcl | hcl | hcl <;> rw [hcl] <;>
        rfl
  · intro bucket st fault sid cs err h
    cases hh : s3_get st fault (PreviewStore.key sid cs) with
    | ok resp =>
      rw [get_preview_ok_eq bucket st fault sid cs resp hh] at h
      simp at h
    | error e =>
      rw [get_preview_err_eq bucket st fault sid cs e hh] at h
      simp only [Except.error.injEq] at h
      subst h
      rcases classifyErr_cases bucket e with hcl | hcl | hcl <;> rw [hcl] <;>
        rfl
  · intro bucket r rt ct putRes err h
    cases putRes with
    | ok u =>
      cases u
      simp [PreviewStore.is_available, PreviewStore.test_put] at h
    | error e =>
      rcases classifyErr_cases bucket e with hcl | hcl | hcl
      · simp only [PreviewStore.is_available, PreviewStore.test_put,
                   handle_client_error_eq, hcl, Except.error.injEq] at h
        subst h
        rfl
      · simp only [PreviewStore.is_available, PreviewStore.test_put,
                   handle_client_error_eq, hcl, Except.error.injEq] at h
        subst h
        rfl
      · simp [PreviewStore.is_available, PreviewStore.test_put,
              handle_client_error_eq, hcl] at h
  · intro bucket putRes waitRes err h
    cases putRes with
    | ok u =>
      cases u
      simp [PreviewStore.initializeStore, PreviewStore.is_available,
            PreviewStore.test_put] at h
    | error e =>
      rcases classifyErr_cases bucket e with hcl | hcl | hcl
      · cases hw : waitRes 5 5 with
        | ok u3 =>
          simp [PreviewStore.initializeStore, PreviewStore.is_available,
                PreviewStore.test_put, handle_client_error_eq, hcl,
                PreviewStore.create_bucket, PreviewStore.wait_for_bucket,
                hw] at h
        | error e3 =>
          rcases classifyErr_cases bucket e3 with hcl3 | hcl3 | hcl3 <;>
            · simp only [PreviewStore.initializeStore,
                  PreviewStore.is_available, PreviewStore.test_put,
                  handle_client_error_eq, hcl, PreviewStore.create_bucket,
                  PreviewStore.wait_for_bucket, hw, hcl3,
                  Except.error.injEq] at h
              subst h
              rfl
      · simp only [PreviewStore.initializeStore, PreviewStore.is_available,
            PreviewStore.test_put, handle_client_error_eq, hcl,
            Except.error.injEq] at h
        subst h
        rfl
      · simp only [PreviewStore.initializeStore, PreviewStore.is_available,
            PreviewStore.test_put, handle_client_error_eq, hcl,
            Except.error.injEq] at h
        subst h
        rfl
  · intro bucket st sid cs e
    exact ⟨⟨_, get_metadata_err_eq bucket st (some e) sid cs e rfl⟩,
           ⟨_, get_preview_checksum_err_eq bucket st (some e) sid cs e rfl⟩,
           ⟨_, get_preview_err_eq bucket st (some e) sid cs e rfl⟩⟩
  · intro bucket st now p e
    cases hpc : p.content with
    | none => exact ⟨_, deposit_nocontent_eq bucket st now (some e) p hpc⟩
    | some content =>
      have hput : s3_put st now (some e) content.stream
          (PreviewStore.hash_content content.stream) "application/pdf"
          (PreviewStore.key p.source_id p.checksum) = Except.error e := rfl
      rcases classifyErr_cases bucket e with hcl | hcl | hcl
      · refine ⟨StoreErr.noSuchBucket (bucket ++ " does not exist"), ?_⟩
        simp only [PreviewStore.deposit, hpc]
        rw [hput]
        simp only [handle_client_error_eq, hcl]
      · refine ⟨StoreErr.doesNotExist ("No such object in " ++ bucket), ?_⟩
        simp only [PreviewStore.deposit, hpc]
        rw [hput]
        simp only [handle_client_error_eq, hcl]
      · refine ⟨StoreErr.depositFailed "Could not deposit preview", ?_⟩
        simp only [PreviewStore.deposit, hpc]
        rw [hput]
        simp only [handle_client_error_eq, hcl]
  · intro bucket r rt ct e
    rcases classifyErr_cases bucket e with hcl | hcl | hcl <;>
      simp [PreviewStore.is_available, PreviewStore.test_put,
            handle_client_error_eq, hcl]

/-- Witness for the amended C7: an unclassified backend fault on a metadata
read surfaces as the wrapped generic `RuntimeError`, which is in the
taxonomy. -/
theorem C7_store_boundary_taxonomy_witness :
    isTaxonomyErr (StoreErr.runtimeError "Unhandled ClientError") = true :=
  C7_store_boundary_taxonomy.2.1 "submission-preview" ⟨true, []⟩
    (some ⟨"Throttled"⟩) "1234" "foohash1=="
    (StoreErr.runtimeError "Unhandled ClientError") rfl

/-! ## Claim C9 -/

/-- Two decompositions of a list around a separator absent from both
prefixes agree. -/
theorem append_sep_inj {α : Type} [DecidableEq α] (sep : α) :
    ∀ (a c b d : List α), sep ∉ a → sep ∉ c →
      a ++ sep :: b = c ++ sep :: d → a = c ∧ b = d := by
  intro a
  induction a with
  | nil =>
    intro c b d _ hc h
    cases c with
    | nil =>
      injection h with _ h2
      exact ⟨rfl, h2⟩
    | cons y cs =>
      injection h with h1 h2
      subst h1
      exact absurd (List.mem_cons_self sep cs) hc
  | cons x as ih =>
    intro c b d ha hc h
    cases c with
    | nil =>
      injection h with h1 h2
      subst h1
      exact absurd (List.mem_cons_self x as) ha
    | cons y cs =>
      injection h with h1 h2
      subst h1
      have ha' : sep ∉ as := fun hm => ha (List.mem_cons_of_mem x hm)
      have hc' : sep ∉ cs := fun hm => hc (List.mem_cons_of_mem x hm)
      obtain ⟨e1, e2⟩ := ih cs b d ha' hc' h2
      exact ⟨by rw [e1], e2⟩

/-- String concatenation acts as list concatenation on the underlying
character data. -/
theorem string_data_append (a b : String) : (a ++ b).data = a.data ++ b.data :=
  rfl

/-- Strings with equal character data are equal. -/
theorem string_data_inj (a b : String) (h : a.data = b.data) : a = b := by
  cases a
  cases b
  exact congrArg String.mk h

/-- The derived key is injective on identities whose components contain no
`'/'` character. -/
theorem key_inj (sid1 chk1 sid2 chk2 : String)
    (h1 : ('/' : Char) ∉ sid1.data) (h2 : ('/' : Char) ∉ chk1.data)
    (h3 : ('/' : Char) ∉ sid2.data) (h4 : ('/' : Char) ∉ chk2.data)
    (h : PreviewStore.key sid1 chk1 = PreviewStore.key sid2 chk2) :
    sid1 = sid2 ∧ chk1 = chk2 := by
  have hd := congrArg String.data h
  simp only [PreviewStore.key, string_data_append, List.append_assoc,
             List.singleton_append] at hd
  have hd' : sid1.data ++ '/' :: (chk1.data ++ '/' :: (sid1.data ++ ".pdf".data))
      = sid2.data ++ '/' :: (chk2.data ++ '/' :: (sid2.data ++ ".pdf".data)) :=
    List.append_cancel_left hd
  obtain ⟨e1, e2⟩ := append_sep_inj '/' sid1.data sid2.data _ _ h1 h3 hd'
  obtain ⟨e3, _⟩ := append_sep_inj '/' chk1.data chk2.data _ _ h2 h4 e2
  exact ⟨string_data_inj sid1 sid2 e1, string_data_inj chk1 chk2 e3⟩

/-- Claim C9 is false as stated: the derived key is not injective for all
distinct identities — two distinct identities whose components contain `'/'`
collide at the same object-storage key. -/
theorem C9_counterexample :
    PreviewStore.key "a" "a/x/a" = PreviewStore.key "a/a" "x"
    ∧ ¬(("a" : String) = "a/a" ∧ ("a/x/a" : String) = "x") :=
  ⟨by decide, by decide⟩

/-- Claim C9 (amended): the derived key equals
`"preview/{source_id}/{checksum}/{source_id}.pdf"`; it is deterministic
and injective for distinct identities provided `source_id` and `checksum`
contain no `'/'` character (identities containing `'/'` can collide); the
three read operations consult the backend only through the entry at the
derived key (and the bucket flag), and a successful deposit changes the
backend only at the derived key. -/
theorem C9_key_scheme (sid1 chk1 sid2 chk2 : String) :
    (∀ s c : String, PreviewStore.key s c
        = "preview/" ++ s ++ "/" ++ c ++ "/" ++ s ++ ".pdf")
    ∧ (('/' : Char) ∉ sid1.data → ('/' : Char) ∉ chk1.data →
       ('/' : Char) ∉ sid2.data → ('/' : Char) ∉ chk2.data →
        PreviewStore.key sid1 chk1 = PreviewStore.key sid2 chk2 →
        sid1 = sid2 ∧ chk1 = chk2)
    ∧ (∀ (bucket : String) (st st' : S3State) (fault : Option ClientError)
          (sid cs : String),
        st.bucketExists = st'.bucketExists →
        lookupObj st.objects (PreviewStore.key sid cs)
          = lookupObj st'.objects (PreviewStore.key sid cs) →
        PreviewStore.get_metadata bucket st fault sid cs
            = PreviewStore.get_metadata bucket st' fault sid cs
        ∧ PreviewStore.get_preview_checksum bucket st fault sid cs
            = PreviewStore.get_preview_checksum bucket st' fault sid cs
        ∧ PreviewStore.get_preview bucket st fault sid cs
            = PreviewStore.get_preview bucket st' fault sid cs)
    ∧ (∀ (bucket : String) (st : S3State) (now : Nat) (p p2 : Preview)
          (st2 : S3State),
        PreviewStore.deposit bucket st now none p = Except.ok (p2, st2) →
        (∀ k', k' ≠ PreviewStore.key p.source_id p.checksum →
          lookupObj st2.objects k' = lookupObj st.objects k')
        ∧ (∃ content : Content, p.content = some content ∧
            lookupObj st2.objects (PreviewStore.key p.source_id p.checksum)
              = some ⟨content.stream, b64encode (md5 content.stream),
                      "application/pdf", now⟩)) := by
  refine ⟨fun s c => rfl, key_inj sid1 chk1 sid2 chk2, ?_, ?_⟩
  · intro bucket st st' fault sid cs hbe hlk
    have hh : s3_head st fault (PreviewStore.key sid cs)
        = s3_head st' fault (PreviewStore.key sid cs) := by
      cases fault with
      | some e => rfl
      | none =>
        simp only [s3_head]
        rw [hbe, hlk]
    have hg : s3_get st fault (PreviewStore.key sid cs)
        = s3_get st' fault (PreviewStore.key sid cs) := by
      cases fault with
      | some e => rfl
      | none =>
        simp only [s3_get]
        rw [hbe, hlk]
    refine ⟨?_, ?_, ?_⟩
    · unfold PreviewStore.get_metadata
      rw [hh]
    · unfold PreviewStore.get_preview_checksum
      rw [hh]
    · unfold PreviewStore.get_preview
      rw [hg]
  · intro bucket st now p p2 st2 h
    cases hpc : p.content with
    | none =>
      rw [deposit_nocontent_eq bucket st now none p hpc] at h
      simp at h
    | some content =>
      cases hb : st.bucketExists with
      | false =>
        rw [deposit_nobucket_eq bucket st now p content hpc hb] at h
        simp at h
      | true =>
        rw [deposit_ok_eq bucket st now p content hpc hb] at h
        simp only [Except.ok.injEq, Prod.mk.injEq] at h
        obtain ⟨hp2, hst2⟩ := h
        subst hst2
        constructor
        · intro k' hk
          have hkne : ¬(PreviewStore.key p.source_id p.checksum = k') :=
            fun hkk => hk hkk.symm
          show lookupObj ((PreviewStore.key p.source_id p.checksum,
              (⟨content.stream, b64encode (md5 content.stream),
                "application/pdf", now⟩ : S3Object)) :: st.objects) k'
            = lookupObj st.objects k'
          rw [lookupObj_cons, if_neg hkne]
        · refine ⟨content, rfl, ?_⟩
          show lookupObj ((PreviewStore.key p.source_id p.checksum,
              (⟨content.stream, b64encode (md5 content.stream),
                "application/pdf", now⟩ : S3Object)) :: st.objects)
              (PreviewStore.key p.source_id p.checksum)
            = some ⟨content.stream, b64encode (md5 content.stream),
                    "application/pdf", now⟩
          rw [lookupObj_cons, if_pos rfl]

/-- Witness for the amended C9: injectivity applied at the repository's own
slash-free identity. -/
theorem C9_key_scheme_witness :
    ("1234" : String) = "1234" ∧ ("foohash1==" : String) = "foohash1==" :=
  (C9_key_scheme "1234" "foohash1==" "1234" "foohash1==").2.1
    (by decide) (by decide) (by decide) (by decide) rfl
